import Mathlib

/-!
Verification of the supply-demand calculator (`src/App.jsx`).

The file shallowly embeds the computational core of the application:

* `parseEquation` — the string parser for linear equations, ported
  statement-by-statement from the JS function of the same name (the regex
  pipeline `replace(/^p/) / replace(/([+-])p/) / replace(/^-p/)`, the global
  term match `([+-]?\d*\.?\d+p?)` with its greedy/backtracking semantics, and
  the per-term accumulation with `parseFloat`);
* `calculateCore` — the post-parse body of `calculateEquilibrium`:
  equilibrium solving, the error messages, the `maxQuantityValue` bound, the
  graph sampling loop and the table construction.

Numbers are modelled by `ℚ` (the spec's data model calls them reals).  A JS
`NaN` arising from `parseFloat` is modelled by `none : Option ℚ`; the
equilibrium arithmetic itself is division-guarded (`aS - aD ≠ 0`), so its
`isNaN` checks are vacuous over `ℚ` and its values are plain rationals.
`null` fields (absent equilibria, absent curve prices, `'N/A'` cells) are
`none`.  Decimal display strings (`toFixed`) are not reproduced; the table
keeps the exact quantity together with the chosen format
(`QuantityFormat.twoDecimals` vs `QuantityFormat.integer`).
-/

namespace OfertaDemanda

attribute [local semireducible] Rat.add Rat.mul Rat.sub Rat.inv

/-- Result of `parseEquation`: slope and intercept (`none` models JS `NaN`)
plus an optional error message. -/
structure ParseResult where
  slope : Option ℚ
  intercept : Option ℚ
  error : Option String
deriving DecidableEq, Repr

/-- JS `\s` on the characters that can occur in these inputs. -/
def isSpaceChar (c : Char) : Bool :=
  c = ' ' || c = '\t' || c = '\n' || c = '\r'

/-- `eq.replace(/^p/, '1p')`: a leading `p` becomes `1p`. -/
def normLeadP : List Char → List Char
  | 'p' :: r => '1' :: 'p' :: r
  | l => l

/-- `eq.replace(/([+-])p/, '$11p')`: the first `+p`/`-p` (scanning left to
right, no anchor, no global flag) becomes `+1p`/`-1p`. -/
def normSignP : List Char → List Char
  | c :: 'p' :: r =>
    if c = '+' ∨ c = '-' then c :: '1' :: 'p' :: r else c :: normSignP ('p' :: r)
  | c :: r => c :: normSignP r
  | [] => []

/-- `eq.replace(/^-p/, '-1p')`: a leading `-p` becomes `-1p`. -/
def normLeadNegP : List Char → List Char
  | '-' :: 'p' :: r => '-' :: '1' :: 'p' :: r
  | l => l

/-- Greedy match of the numeric core `\d*\.?\d+` of the term regex at the
head of `l`; returns the matched characters and the remaining input.  The JS
backtracking makes digits followed by a dot with no digit after it match the
digits only (`"12.x"` matches `"12"`), and requires at least one digit. -/
def matchNum (l : List Char) : Option (List Char × List Char) :=
  let ds := l.takeWhile Char.isDigit
  let rest := l.drop ds.length
  match rest with
  | '.' :: r2 =>
    let ds2 := r2.takeWhile Char.isDigit
    if ds2.isEmpty then
      if ds.isEmpty then none else some (ds, rest)
    else some (ds ++ '.' :: ds2, r2.drop ds2.length)
  | _ => if ds.isEmpty then none else some (ds, rest)

/-- Match of the full term regex `[+-]?\d*\.?\d+p?` at the head of `l`.
If a sign is present but no number follows, the match fails (retrying with
the optional sign empty also fails, since the sign character is not a
digit). -/
def matchTermAt (l : List Char) : Option (List Char × List Char) :=
  match l with
  | [] => none
  | c :: r =>
    if c = '+' ∨ c = '-' then
      match matchNum r with
      | some (n, rest) =>
        match rest with
        | 'p' :: r3 => some (c :: (n ++ ['p']), r3)
        | _ => some (c :: n, rest)
      | none => none
    else
      match matchNum l with
      | some (n, rest) =>
        match rest with
        | 'p' :: r3 => some (n ++ ['p'], r3)
        | _ => some (n, rest)
      | none => none

/-- `eq.match(/([+-]?\d*\.?\d+p?)/g)`: scan left to right; at each position
emit the greedy match if there is one and continue after it, otherwise
advance one character.  The fuel starts at the input length, which is enough
because every step consumes at least one character. -/
def tokenizeAux : Nat → List Char → List (List Char)
  | 0, _ => []
  | _, [] => []
  | fuel + 1, l@(_ :: r) =>
    match matchTermAt l with
    | some (t, rest) => t :: tokenizeAux fuel rest
    | none => tokenizeAux fuel r

/-- All matches of the term regex over the normalized equation. -/
def tokenize (l : List Char) : List (List Char) :=
  tokenizeAux l.length l

/-- Numeric value of a digit string. -/
def natOfDigits (l : List Char) : ℕ :=
  l.foldl (fun acc c => acc * 10 + (c.toNat - '0'.toNat)) 0

/-- `parseFloat` on the character lists that tokenized terms are made of
(optional sign, digits, optional dot and digits); `none` models `NaN`.
Terms produced by the tokenizer never contain exponents, so exponents are
not modelled. -/
def parseFloatQ (l : List Char) : Option ℚ :=
  let sl : ℚ × List Char :=
    match l with
    | '+' :: r => (1, r)
    | '-' :: r => (-1, r)
    | _ => (1, l)
  let ds := sl.2.takeWhile Char.isDigit
  let rest := sl.2.drop ds.length
  let frac : List Char :=
    match rest with
    | '.' :: r2 => r2.takeWhile Char.isDigit
    | _ => []
  if ds.isEmpty && frac.isEmpty then none
  else some (sl.1 * ((natOfDigits ds : ℚ) + (natOfDigits frac : ℚ) / 10 ^ frac.length))

/-- `term.replace('p', '')`: remove the first occurrence of a character. -/
def removeFirst (c : Char) : List Char → List Char
  | [] => []
  | x :: xs => if x = c then xs else x :: removeFirst c xs

/-- Addition on `Option ℚ` where `none` models `NaN` (absorbing). -/
def addN (a b : Option ℚ) : Option ℚ :=
  match a, b with
  | some x, some y => some (x + y)
  | _, _ => none

/-- The accumulation loop of `parseEquation`: slope and intercept sums over
the matched terms. -/
def processTerms (terms : List (List Char)) : Option ℚ × Option ℚ :=
  terms.foldl
    (fun acc term =>
      if 'p' ∈ term then
        let coefStr := removeFirst 'p' term
        if coefStr = ['+'] ∨ coefStr = [] then (addN acc.1 (some 1), acc.2)
        else if coefStr = ['-'] then (addN acc.1 (some (-1)), acc.2)
        else (addN acc.1 (parseFloatQ coefStr), acc.2)
      else (acc.1, addN acc.2 (parseFloatQ term)))
    (some 0, some 0)

/-- Error message for an input with no matched terms. -/
def invalidFormatMsg : String :=
  "Formato de ecuación inválido. Usa \x27aP + b\x27 o \x27b - aP\x27."

/-- Error message for a `NaN` slope or intercept. -/
def nanFormatMsg : String :=
  "Por favor, ingresa un formato de ecuación válido (ej. \x272P + 10\x27 o \x2750 - 3P\x27)."

/-- The JS `parseEquation`: strip whitespace, lowercase, normalize the
implicit coefficient on `p`, tokenize, and accumulate slope and intercept.
The `try/catch` of the source is omitted: no statement in the body throws. -/
def parseEquation (s : String) : ParseResult :=
  let eq0 := (s.data.filter (fun c => !isSpaceChar c)).map Char.toLower
  let eq1 := normLeadNegP (normSignP (normLeadP eq0))
  let terms := tokenize eq1
  if terms.isEmpty then
    { slope := some 0, intercept := some 0, error := some invalidFormatMsg }
  else
    let si := processTerms terms
    { slope := si.1
      intercept := si.2
      error := if si.1 = none ∨ si.2 = none then some nanFormatMsg else none }

/-- An accepted equilibrium point. -/
structure EqPoint where
  price : ℚ
  quantity : ℚ
deriving DecidableEq, Repr

/-- One graph sample (`null` prices are `none`). -/
structure SamplePoint where
  quantity : ℚ
  price_demanda_original : Option ℚ
  price_oferta_original : Option ℚ
  price_demanda_shifted : Option ℚ
  price_oferta_shifted : Option ℚ
deriving DecidableEq, Repr

/-- The display format chosen for a table row's quantity
(`toFixed(2)` vs `toFixed(0)` in the source). -/
inductive QuantityFormat where
  | twoDecimals
  | integer
deriving DecidableEq, Repr

/-- One table row: the exact quantity, its display format, and the four
prices (`'N/A'` cells are `none`). -/
structure TableRow where
  quantity : ℚ
  format : QuantityFormat
  price_demanda_original : Option ℚ
  price_oferta_original : Option ℚ
  price_demanda_shifted : Option ℚ
  price_oferta_shifted : Option ℚ
deriving DecidableEq, Repr

/-- The solve step shared by the original and shifted cases:
`p = (bD - bS) / (aS - aD)`, `q = aD p + bD`, accepted only when
`q_calc >= 0 && p_calc >= 0` (the `isNaN` guards of the source are vacuous
over `ℚ` because the caller ensures `aS - aD ≠ 0`). -/
def solvePoint (aD bD aS bS : ℚ) : Option EqPoint :=
  let p := (bD - bS) / (aS - aD)
  let q := aD * p + bD
  if 0 ≤ q ∧ 0 ≤ p then some ⟨p, q⟩ else none

/-- The original equilibrium (`localPEInitial` / `localQEInitial`). -/
def initialEqOf (aD bD aS bS : ℚ) : Option EqPoint :=
  if aS - aD ≠ 0 then solvePoint aD bD aS bS else none

/-- The shifted equilibrium, solved on `bD + sD` and `bS + sS` with the
slopes unchanged. -/
def shiftedEqOf (aD bD aS bS sD sS : ℚ) : Option EqPoint :=
  if aS - aD ≠ 0 then solvePoint aD (bD + sD) aS (bS + sS) else none

/-- Parallel-slopes error message. -/
def parallelSlopesMsg : String :=
  "Las pendientes de oferta y demanda son las mismas, no hay un único punto de equilibrio o son paralelas."

/-- Message when shifts are active and no equilibrium was found. -/
def noEquilibriumMsg : String :=
  "No se pudo encontrar un equilibrio válido para las ecuaciones dadas, incluso con los desplazamientos."

/-- `localError` of the source: the parallel-slopes message when
`aS - aD = 0`, upgraded to the no-equilibrium message when there was no
error, both equilibria are absent, and some shift is non-zero. -/
def errOf (aD bD aS bS sD sS : ℚ) : Option String :=
  let base : Option String := if aS - aD = 0 then some parallelSlopesMsg else none
  if base = none ∧ initialEqOf aD bD aS bS = none ∧
      shiftedEqOf aD bD aS bS sD sS = none ∧ (sD ≠ 0 ∨ sS ≠ 0) then
    some noEquilibriumMsg
  else base

/-- One `if (localQE... !== null) maxQuantityValue = Math.max(maxQuantityValue,
localQE... * 1.5)` statement of the source. -/
def maxStepEq (m : ℚ) (o : Option EqPoint) : ℚ :=
  match o with
  | some pt => max m (pt.quantity * (3 / 2))
  | none => m

/-- One `if (slope-sign and positive intercept) maxQuantityValue =
Math.max(maxQuantityValue, intercept * 1.1)` statement of the source. -/
def maxStepIntercept (m : ℚ) (cond : Bool) (b : ℚ) : ℚ :=
  if cond then max m (b * (11 / 10)) else m

/-- `maxQuantityValue`: successive `Math.max` over 1.5× the equilibrium
quantities, 1.1× the positive quantity-intercepts (original and shifted),
then a floor of 20. -/
def maxQuantityOf (aD bD aS bS sD sS : ℚ) : ℚ :=
  let m1 := maxStepEq 0 (initialEqOf aD bD aS bS)
  let m2 := maxStepEq m1 (shiftedEqOf aD bD aS bS sD sS)
  let m3 := maxStepIntercept m2 (decide (aD < 0 ∧ 0 < bD)) bD
  let m4 := maxStepIntercept m3 (decide (0 < aS ∧ 0 < bS)) bS
  let m5 := maxStepIntercept m4 (decide (aD < 0 ∧ 0 < bD + sD)) (bD + sD)
  let m6 := maxStepIntercept m5 (decide (0 < aS ∧ 0 < bS + sS)) (bS + sS)
  max m6 20

/-- The graph/table price of one curve at quantity `q`:
`(q - intercept) / slope` when the slope is non-zero and that price is
non-negative, else `null`. -/
def curvePrice (slope intercept q : ℚ) : Option ℚ :=
  if slope ≠ 0 ∧ 0 ≤ (q - intercept) / slope then some ((q - intercept) / slope)
  else none

/-- Statement form of the per-curve inclusion rule for a sampled price: a
present price is the inverted price `(q - intercept) / slope`, is
non-negative, and comes with a non-zero slope; an absent price means the
slope is zero or the inverted price is negative. -/
def SampleRule (slope intercept q : ℚ) (pr : Option ℚ) : Prop :=
  (∀ v, pr = some v → slope ≠ 0 ∧ v = (q - intercept) / slope ∧ 0 ≤ v) ∧
  (pr = none → slope = 0 ∨ (q - intercept) / slope < 0)

/-- The sampling step `(maxQuantityValue - minQuantityValue) / numPointsGraph`
with `minQuantityValue = 0` and `numPointsGraph = 50`. -/
def stepOf (aD bD aS bS sD sS : ℚ) : ℚ :=
  maxQuantityOf aD bD aS bS sD sS / 50

/-- The graph sampling loop `for (i = 0; i <= 50; i++)`. -/
def graphDataOf (aD bD aS bS sD sS : ℚ) : List SamplePoint :=
  (List.range 51).map fun (i : ℕ) =>
    let q := (i : ℚ) * stepOf aD bD aS bS sD sS
    { quantity := q
      price_demanda_original := curvePrice aD bD q
      price_oferta_original := curvePrice aS bS q
      price_demanda_shifted := curvePrice aD (bD + sD) q
      price_oferta_shifted := curvePrice aS (bS + sS) q }

/-- `Math.round` (half away from zero is half toward `+∞` in JS). -/
def jsRound (q : ℚ) : ℤ :=
  (q + 1 / 2).floor

/-- `EPSILON` of the source. -/
def EPSILON : ℚ := 1 / 100

/-- `q % 5 === 0` for the (non-negative) sampled quantities: `q` is an exact
integer multiple of 5. -/
def isIntMultipleOf5 (q : ℚ) : Bool :=
  (q / 5).den = 1

/-- Adding to a JS `Set`: append unless already present. -/
def addUnique (acc : List ℚ) (x : ℚ) : List ℚ :=
  if x ∈ acc then acc else acc ++ [x]

/-- `rawTableQuantities`: rounded sampled quantities that are multiples of 5
or within `EPSILON * 10` of an integer, then the exact equilibrium
quantities. -/
def rawTableQuantitiesOf (aD bD aS bS sD sS : ℚ) : List ℚ :=
  let base := (List.range 51).foldl
    (fun acc (i : ℕ) =>
      let q := (i : ℚ) * stepOf aD bD aS bS sD sS
      if isIntMultipleOf5 q || decide (|q - (jsRound q : ℚ)| < EPSILON * 10) then
        addUnique acc (jsRound q : ℚ)
      else acc)
    []
  let withInit := match initialEqOf aD bD aS bS with
    | some pt => addUnique base pt.quantity
    | none => base
  match shiftedEqOf aD bD aS bS sD sS with
  | some pt => addUnique withInit pt.quantity
  | none => withInit

/-- Sorted insertion into an ascending list. -/
def insertSorted (x : ℚ) : List ℚ → List ℚ
  | [] => [x]
  | y :: ys => if x ≤ y then x :: y :: ys else y :: insertSorted x ys

/-- Ascending numeric sort.  The source sorts the deduplicated array with a
numeric comparator; on distinct elements any correct sort produces the same
list, so insertion sort is used here to keep the definition
kernel-reducible. -/
def sortQ (l : List ℚ) : List ℚ :=
  l.foldr insertSorted []

/-- `sortedTableQuantities`. -/
def tableQuantitiesOf (aD bD aS bS sD sS : ℚ) : List ℚ :=
  sortQ (rawTableQuantitiesOf aD bD aS bS sD sS)

/-- One table row at quantity `q`: recomputed prices and the display format
(two decimals when `q` is within `EPSILON` of an equilibrium quantity, else
integer). -/
def tableRowOf (aD bD aS bS sD sS q : ℚ) : TableRow :=
  let isInitialEq : Bool :=
    match initialEqOf aD bD aS bS with
    | some pt => decide (|q - pt.quantity| < EPSILON)
    | none => false
  let isShiftedEq : Bool :=
    match shiftedEqOf aD bD aS bS sD sS with
    | some pt => decide (|q - pt.quantity| < EPSILON)
    | none => false
  { quantity := q
    format := if isInitialEq || isShiftedEq then QuantityFormat.twoDecimals
      else QuantityFormat.integer
    price_demanda_original := curvePrice aD bD q
    price_oferta_original := curvePrice aS bS q
    price_demanda_shifted := curvePrice aD (bD + sD) q
    price_oferta_shifted := curvePrice aS (bS + sS) q }

/-- `tableDataPoints`. -/
def tableDataOf (aD bD aS bS sD sS : ℚ) : List TableRow :=
  (tableQuantitiesOf aD bD aS bS sD sS).map (tableRowOf aD bD aS bS sD sS)

/-- All outputs of the post-parse body of `calculateEquilibrium`. -/
structure CoreResult where
  err : Option String
  initialEquilibrium : Option EqPoint
  shiftedEquilibrium : Option EqPoint
  maxQuantityValue : ℚ
  graphData : List SamplePoint
  tableQuantities : List ℚ
  tableData : List TableRow
deriving DecidableEq, Repr

/-- The body of `calculateEquilibrium` after both equations parsed without
error, as a function of the parsed slopes/intercepts and the two shifts. -/
def calculateCore (aD bD aS bS sD sS : ℚ) : CoreResult :=
  { err := errOf aD bD aS bS sD sS
    initialEquilibrium := initialEqOf aD bD aS bS
    shiftedEquilibrium := shiftedEqOf aD bD aS bS sD sS
    maxQuantityValue := maxQuantityOf aD bD aS bS sD sS
    graphData := graphDataOf aD bD aS bS sD sS
    tableQuantities := tableQuantitiesOf aD bD aS bS sD sS
    tableData := tableDataOf aD bD aS bS sD sS }

/-- Prefix of the demand-equation error report. -/
def demandErrorPrefix : String := "Error en la ecuación de Demanda: "

/-- Prefix of the supply-equation error report. -/
def supplyErrorPrefix : String := "Error en la ecuación de Oferta: "

/-- The error reported by `calculateEquilibrium` on string inputs: a demand
parse error first, else a supply parse error, else the solver's error.  The
final wildcard is unreachable: `parseEquation` sets an error whenever its
slope or intercept is `NaN`. -/
def topError (demandEq supplyEq : String) (sD sS : ℚ) : Option String :=
  match (parseEquation demandEq).error with
  | some e => some (demandErrorPrefix ++ e)
  | none =>
    match (parseEquation supplyEq).error with
    | some e => some (supplyErrorPrefix ++ e)
    | none =>
      match (parseEquation demandEq).slope, (parseEquation demandEq).intercept,
          (parseEquation supplyEq).slope, (parseEquation supplyEq).intercept with
      | some aD, some bD, some aS, some bS => (calculateCore aD bD aS bS sD sS).err
      | _, _, _, _ => none

/-! Helper lemmas. -/

/-- A point accepted by the solve step carries the closed-form price and
quantity and is non-negative in both coordinates. -/
theorem solvePoint_eq_some {aD bD aS bS : ℚ} {pt : EqPoint}
    (h : solvePoint aD bD aS bS = some pt) :
    pt.price = (bD - bS) / (aS - aD) ∧ pt.quantity = aD * pt.price + bD ∧
      0 ≤ pt.price ∧ 0 ≤ pt.quantity := by
  simp only [solvePoint] at h
  split at h
  next hc =>
    simp only [Option.some.injEq] at h
    subst h
    exact ⟨rfl, rfl, hc.2, hc.1⟩
  next => exact absurd h (by simp)

/-- A present original equilibrium comes from the solve step with
non-parallel slopes. -/
theorem initialEqOf_eq_some {aD bD aS bS : ℚ} {pt : EqPoint}
    (h : initialEqOf aD bD aS bS = some pt) :
    aS - aD ≠ 0 ∧ solvePoint aD bD aS bS = some pt := by
  simp only [initialEqOf] at h
  split at h
  next hc => exact ⟨hc, h⟩
  next => exact absurd h (by simp)

/-- A present shifted equilibrium comes from the solve step on the shifted
intercepts with non-parallel slopes. -/
theorem shiftedEqOf_eq_some {aD bD aS bS sD sS : ℚ} {pt : EqPoint}
    (h : shiftedEqOf aD bD aS bS sD sS = some pt) :
    aS - aD ≠ 0 ∧ solvePoint aD (bD + sD) aS (bS + sS) = some pt := by
  simp only [shiftedEqOf] at h
  split at h
  next hc => exact ⟨hc, h⟩
  next => exact absurd h (by simp)

/-- A present curve price is the inverted price, with non-zero slope,
non-negative. -/
theorem curvePrice_some {a b q v : ℚ} (h : curvePrice a b q = some v) :
    a ≠ 0 ∧ v = (q - b) / a ∧ 0 ≤ v := by
  simp only [curvePrice] at h
  split at h
  next hc =>
    simp only [Option.some.injEq] at h
    exact ⟨hc.1, h.symm, h ▸ hc.2⟩
  next => exact absurd h (by simp)

/-- An absent curve price means a zero slope or a negative inverted price. -/
theorem curvePrice_none {a b q : ℚ} (h : curvePrice a b q = none) :
    a = 0 ∨ (q - b) / a < 0 := by
  simp only [curvePrice] at h
  split at h
  next => exact absurd h (by simp)
  next hc =>
    rcases not_and_or.mp hc with h1 | h2
    · exact Or.inl (not_not.mp h1)
    · exact Or.inr (not_le.mp h2)

/-- `curvePrice` satisfies the inclusion rule. -/
theorem sampleRule_curvePrice (a b q : ℚ) : SampleRule a b q (curvePrice a b q) :=
  ⟨fun _ h => curvePrice_some h, fun h => curvePrice_none h⟩

/-- The added element is in the set. -/
theorem mem_addUnique_self (l : List ℚ) (x : ℚ) : x ∈ addUnique l x := by
  by_cases h : x ∈ l <;> simp [addUnique, h]

/-- Adding to the set preserves membership. -/
theorem mem_addUnique_of_mem {l : List ℚ} {y : ℚ} (x : ℚ) (h : y ∈ l) :
    y ∈ addUnique l x := by
  by_cases hx : x ∈ l <;> simp [addUnique, hx, h]

/-- Membership through sorted insertion. -/
theorem mem_insertSorted (a x : ℚ) : ∀ l : List ℚ,
    (a ∈ insertSorted x l ↔ a = x ∨ a ∈ l)
  | [] => by simp [insertSorted]
  | y :: ys => by
    simp only [insertSorted]
    split
    · simp [List.mem_cons]
    · simp only [List.mem_cons, mem_insertSorted a x ys]
      tauto

/-- Sorting preserves membership. -/
theorem mem_sortQ (a : ℚ) : ∀ l : List ℚ, (a ∈ sortQ l ↔ a ∈ l)
  | [] => by simp [sortQ]
  | x :: xs => by
    have hstep : sortQ (x :: xs) = insertSorted x (sortQ xs) := rfl
    rw [hstep, mem_insertSorted, mem_sortQ a xs]
    simp [List.mem_cons]

/-- The accumulator never decreases through an equilibrium max step. -/
theorem le_maxStepEq (m : ℚ) (o : Option EqPoint) : m ≤ maxStepEq m o := by
  cases o <;> simp [maxStepEq]

/-- A present equilibrium bound is reflected by its max step. -/
theorem maxStepEq_bound {m : ℚ} {o : Option EqPoint} {pt : EqPoint}
    (h : o = some pt) : pt.quantity * (3 / 2) ≤ maxStepEq m o := by
  subst h
  simp [maxStepEq]

/-- An equilibrium max step yields the accumulator or a present bound. -/
theorem maxStepEq_cases (m : ℚ) (o : Option EqPoint) :
    maxStepEq m o = m ∨ ∃ pt, o = some pt ∧ maxStepEq m o = pt.quantity * (3 / 2) := by
  cases o with
  | none => exact Or.inl rfl
  | some pt =>
    rcases max_choice m (pt.quantity * (3 / 2)) with h | h
    · exact Or.inl h
    · exact Or.inr ⟨pt, rfl, h⟩

/-- The accumulator never decreases through an intercept max step. -/
theorem le_maxStepIntercept (m : ℚ) (c : Bool) (b : ℚ) :
    m ≤ maxStepIntercept m c b := by
  cases c <;> simp [maxStepIntercept]

/-- An applicable intercept bound is reflected by its max step. -/
theorem maxStepIntercept_bound {m b : ℚ} {c : Bool} (h : c = true) :
    b * (11 / 10) ≤ maxStepIntercept m c b := by
  subst h
  simp [maxStepIntercept]

/-- An intercept max step yields the accumulator or its bound. -/
theorem maxStepIntercept_cases (m : ℚ) (c : Bool) (b : ℚ) :
    maxStepIntercept m c b = m ∨ maxStepIntercept m c b = b * (11 / 10) := by
  cases c
  · exact Or.inl rfl
  · exact max_choice m (b * (11 / 10))

/-- Bounds and attainment for the whole `maxQuantityValue` chain, stated
over arbitrary chain inputs. -/
theorem maxChain_characterization (o1 o2 : Option EqPoint) (c3 c4 c5 c6 : Bool)
    (b3 b4 b5 b6 R : ℚ)
    (hR : R = max (maxStepIntercept (maxStepIntercept (maxStepIntercept
      (maxStepIntercept (maxStepEq (maxStepEq 0 o1) o2) c3 b3) c4 b4) c5 b5)
      c6 b6) 20) :
    20 ≤ R ∧
    (∀ pt, o1 = some pt → pt.quantity * (3 / 2) ≤ R) ∧
    (∀ pt, o2 = some pt → pt.quantity * (3 / 2) ≤ R) ∧
    (c3 = true → b3 * (11 / 10) ≤ R) ∧
    (c4 = true → b4 * (11 / 10) ≤ R) ∧
    (c5 = true → b5 * (11 / 10) ≤ R) ∧
    (c6 = true → b6 * (11 / 10) ≤ R) ∧
    (R = 20 ∨
      (∃ pt, o1 = some pt ∧ R = pt.quantity * (3 / 2)) ∨
      (∃ pt, o2 = some pt ∧ R = pt.quantity * (3 / 2)) ∨
      R = b3 * (11 / 10) ∨ R = b4 * (11 / 10) ∨
      R = b5 * (11 / 10) ∨ R = b6 * (11 / 10)) := by
  subst hR
  set m1 := maxStepEq 0 o1 with hm1
  set m2 := maxStepEq m1 o2 with hm2
  set m3 := maxStepIntercept m2 c3 b3 with hm3
  set m4 := maxStepIntercept m3 c4 b4 with hm4
  set m5 := maxStepIntercept m4 c5 b5 with hm5
  set m6 := maxStepIntercept m5 c6 b6 with hm6
  have h12 : m1 ≤ m2 := by rw [hm2]; exact le_maxStepEq m1 o2
  have h23 : m2 ≤ m3 := by rw [hm3]; exact le_maxStepIntercept m2 c3 b3
  have h34 : m3 ≤ m4 := by rw [hm4]; exact le_maxStepIntercept m3 c4 b4
  have h45 : m4 ≤ m5 := by rw [hm5]; exact le_maxStepIntercept m4 c5 b5
  have h56 : m5 ≤ m6 := by rw [hm6]; exact le_maxStepIntercept m5 c6 b6
  have h6R : m6 ≤ max m6 20 := le_max_left _ _
  have h2R : m2 ≤ max m6 20 := le_trans h23 (le_trans h34 (le_trans h45 (le_trans h56 h6R)))
  have h3R : m3 ≤ max m6 20 := le_trans h34 (le_trans h45 (le_trans h56 h6R))
  have h4R : m4 ≤ max m6 20 := le_trans h45 (le_trans h56 h6R)
  have h5R : m5 ≤ max m6 20 := le_trans h56 h6R
  refine ⟨le_max_right _ _, ?_, ?_, ?_, ?_, ?_, ?_, ?_⟩
  · intro pt h
    have hb : pt.quantity * (3 / 2) ≤ m1 := by rw [hm1]; exact maxStepEq_bound h
    exact le_trans hb (le_trans h12 h2R)
  · intro pt h
    have hb : pt.quantity * (3 / 2) ≤ m2 := by rw [hm2]; exact maxStepEq_bound h
    exact le_trans hb h2R
  · intro h
    have hb : b3 * (11 / 10) ≤ m3 := by rw [hm3]; exact maxStepIntercept_bound h
    exact le_trans hb h3R
  · intro h
    have hb : b4 * (11 / 10) ≤ m4 := by rw [hm4]; exact maxStepIntercept_bound h
    exact le_trans hb h4R
  · intro h
    have hb : b5 * (11 / 10) ≤ m5 := by rw [hm5]; exact maxStepIntercept_bound h
    exact le_trans hb h5R
  · intro h
    have hb : b6 * (11 / 10) ≤ m6 := by rw [hm6]; exact maxStepIntercept_bound h
    exact le_trans hb h6R
  · rcases max_choice m6 20 with h | h
    · have hc6 := maxStepIntercept_cases m5 c6 b6
      rw [← hm6] at hc6
      rcases hc6 with h6 | h6
      · have hc5 := maxStepIntercept_cases m4 c5 b5
        rw [← hm5] at hc5
        rcases hc5 with h5 | h5
        · have hc4 := maxStepIntercept_cases m3 c4 b4
          rw [← hm4] at hc4
          rcases hc4 with h4 | h4
          · have hc3 := maxStepIntercept_cases m2 c3 b3
            rw [← hm3] at hc3
            rcases hc3 with h3 | h3
            · have hc2 := maxStepEq_cases m1 o2
              rw [← hm2] at hc2
              rcases hc2 with h2 | h2
              · have hc1 := maxStepEq_cases 0 o1
                rw [← hm1] at hc1
                rcases hc1 with h1 | h1
                · exfalso
                  have h0 : max m6 20 = 0 := by
                    rw [h, h6, h5, h4, h3, h2, h1]
                  have h20 : (20 : ℚ) ≤ max m6 20 := le_max_right _ _
                  rw [h0] at h20
                  norm_num at h20
                · obtain ⟨pt, hpt, hv⟩ := h1
                  exact Or.inr (Or.inl ⟨pt, hpt, by rw [h, h6, h5, h4, h3, h2, hv]⟩)
              · obtain ⟨pt, hpt, hv⟩ := h2
                exact Or.inr (Or.inr (Or.inl ⟨pt, hpt, by rw [h, h6, h5, h4, h3, hv]⟩))
            · exact Or.inr (Or.inr (Or.inr (Or.inl (by rw [h, h6, h5, h4, h3]))))
          · exact Or.inr (Or.inr (Or.inr (Or.inr (Or.inl (by rw [h, h6, h5, h4])))))
        · exact Or.inr (Or.inr (Or.inr (Or.inr (Or.inr (Or.inl (by rw [h, h6, h5]))))))
      · exact Or.inr (Or.inr (Or.inr (Or.inr (Or.inr (Or.inr (by rw [h, h6]))))))
    · exact Or.inl h

/-! Claim theorems. -/

/-- Claim C1: for parsed demand `(aD, bD)` and supply `(aS, bS)` with
`aS ≠ aD`, any original equilibrium the solver produces has
`price = (bD - bS) / (aS - aD)` and `quantity = aD * price + bD`; for demand
slope `-1`, intercept `16` and supply slope `1`, intercept `4` it yields
price `6` and quantity `10`. -/
theorem original_equilibrium_formula :
    (∀ aD bD aS bS sD sS : ℚ, aS ≠ aD →
      ∀ pt, (calculateCore aD bD aS bS sD sS).initialEquilibrium = some pt →
        pt.price = (bD - bS) / (aS - aD) ∧ pt.quantity = aD * pt.price + bD) ∧
    (calculateCore (-1) 16 1 4 0 0).initialEquilibrium = some ⟨6, 10⟩ := by
  constructor
  · intro aD bD aS bS sD sS _ pt h
    simp only [calculateCore] at h
    obtain ⟨-, hs⟩ := initialEqOf_eq_some h
    obtain ⟨hp, hq, -, -⟩ := solvePoint_eq_some hs
    exact ⟨hp, hq⟩
  · decide

/-- Witness for C1 at the spec's example. -/
theorem original_equilibrium_formula_witness :
    (6 : ℚ) = (16 - 4) / (1 - (-1)) ∧ (10 : ℚ) = (-1) * 6 + 16 := by
  have h := original_equilibrium_formula.1 (-1) 16 1 4 0 0 (by norm_num) ⟨6, 10⟩
    original_equilibrium_formula.2
  exact ⟨h.1, h.2⟩

/-- Claim C2: the shifted equilibrium is solved on intercepts `bD + sD` and
`bS + sS` with both slopes unchanged; for demand slope `-1`, intercept `16`,
supply slope `1`, intercept `4` and demand shift `+4` it yields price `8`
and quantity `12`. -/
theorem shifted_equilibrium_formula :
    (∀ aD bD aS bS sD sS : ℚ, aS ≠ aD →
      ∀ pt, (calculateCore aD bD aS bS sD sS).shiftedEquilibrium = some pt →
        pt.price = ((bD + sD) - (bS + sS)) / (aS - aD) ∧
          pt.quantity = aD * pt.price + (bD + sD)) ∧
    (calculateCore (-1) 16 1 4 4 0).shiftedEquilibrium = some ⟨8, 12⟩ := by
  constructor
  · intro aD bD aS bS sD sS _ pt h
    simp only [calculateCore] at h
    obtain ⟨-, hs⟩ := shiftedEqOf_eq_some h
    obtain ⟨hp, hq, -, -⟩ := solvePoint_eq_some hs
    exact ⟨hp, hq⟩
  · decide

/-- Witness for C2 at the spec's example (demand shift `+4`). -/
theorem shifted_equilibrium_formula_witness :
    (8 : ℚ) = ((16 + 4) - (4 + 0)) / (1 - (-1)) ∧
      (12 : ℚ) = (-1) * 8 + (16 + 4) := by
  have h := shifted_equilibrium_formula.1 (-1) 16 1 4 4 0 (by norm_num) ⟨8, 12⟩
    shifted_equilibrium_formula.2
  exact ⟨h.1, h.2⟩

/-- Claim C3: any produced equilibrium (original or shifted) has
non-negative price and quantity (finiteness is automatic over `ℚ`), and
absence alone is not an error: with distinct slopes and both shifts zero the
solver reports no error, even when the equilibria are absent. -/
theorem equilibrium_nonnegative :
    ∀ aD bD aS bS sD sS : ℚ,
      (∀ pt, (calculateCore aD bD aS bS sD sS).initialEquilibrium = some pt →
        0 ≤ pt.price ∧ 0 ≤ pt.quantity) ∧
      (∀ pt, (calculateCore aD bD aS bS sD sS).shiftedEquilibrium = some pt →
        0 ≤ pt.price ∧ 0 ≤ pt.quantity) ∧
      (aS ≠ aD → sD = 0 → sS = 0 → (calculateCore aD bD aS bS sD sS).err = none) := by
  intro aD bD aS bS sD sS
  refine ⟨?_, ?_, ?_⟩
  · intro pt h
    simp only [calculateCore] at h
    obtain ⟨-, hs⟩ := initialEqOf_eq_some h
    obtain ⟨-, -, hp, hq⟩ := solvePoint_eq_some hs
    exact ⟨hp, hq⟩
  · intro pt h
    simp only [calculateCore] at h
    obtain ⟨-, hs⟩ := shiftedEqOf_eq_some h
    obtain ⟨-, -, hp, hq⟩ := solvePoint_eq_some hs
    exact ⟨hp, hq⟩
  · intro hne hsD hsS
    have hsub : aS - aD ≠ 0 := sub_ne_zero.mpr hne
    subst hsD hsS
    simp [calculateCore, errOf, hsub]

/-- Witness for C3: the accepted example point is non-negative, and an input
whose equilibrium is negative (demand `-P - 5`, supply `P + 4`) yields no
error when shifts are zero. -/
theorem equilibrium_nonnegative_witness :
    ((0 : ℚ) ≤ 6 ∧ (0 : ℚ) ≤ 10) ∧ (calculateCore (-1) (-5) 1 4 0 0).err = none :=
  ⟨(equilibrium_nonnegative (-1) 16 1 4 0 0).1 ⟨6, 10⟩ (by decide),
   (equilibrium_nonnegative (-1) (-5) 1 4 0 0).2.2 (by norm_num) rfl rfl⟩

/-- Claim C4: with equal slopes (`aS = aD` exactly) the solver reports the
parallel-slopes error and produces neither the original nor the shifted
equilibrium. -/
theorem parallel_slopes_no_equilibrium :
    ∀ aD bD aS bS sD sS : ℚ, aS = aD →
      (calculateCore aD bD aS bS sD sS).err = some parallelSlopesMsg ∧
      (calculateCore aD bD aS bS sD sS).initialEquilibrium = none ∧
      (calculateCore aD bD aS bS sD sS).shiftedEquilibrium = none := by
  intro aD bD aS bS sD sS heq
  have hsub : aS - aD = 0 := sub_eq_zero_of_eq heq
  refine ⟨?_, ?_, ?_⟩
  · simp [calculateCore, errOf, hsub]
  · simp [calculateCore, initialEqOf, hsub]
  · simp [calculateCore, shiftedEqOf, hsub]

/-- Witness for C4 at the spec's parallel example (both slopes `1`). -/
theorem parallel_slopes_no_equilibrium_witness :
    (calculateCore 1 10 1 4 0 0).err = some parallelSlopesMsg ∧
    (calculateCore 1 10 1 4 0 0).initialEquilibrium = none ∧
    (calculateCore 1 10 1 4 0 0).shiftedEquilibrium = none :=
  parallel_slopes_no_equilibrium 1 10 1 4 0 0 rfl

/-- Claim C5: the parser's five spec examples: `"-P + 16"` gives slope `-1`
and intercept `16`; `"P + 4"` gives `1` and `4`; `"2P+10"` gives `2` and
`10`; `"50-3P"` gives `-3` and `50`; `"abc"` sets an error and returns slope
`0`, intercept `0`. -/
theorem parse_examples :
    parseEquation "-P + 16" = ⟨some (-1), some 16, none⟩ ∧
    parseEquation "P + 4" = ⟨some 1, some 4, none⟩ ∧
    parseEquation "2P+10" = ⟨some 2, some 10, none⟩ ∧
    parseEquation "50-3P" = ⟨some (-3), some 50, none⟩ ∧
    parseEquation "abc" = ⟨some 0, some 0, some invalidFormatMsg⟩ := by
  decide

/-- Claim C6 counterexample: parsing `"P+P+P"` does not yield slope `3`.
The sign-and-`p` replacement has no global flag, so only the first bare `P`
after an operator is normalized; the last bare `P` never tokenizes. -/
theorem bare_p_sum_refuted : (parseEquation "P+P+P").slope ≠ some 3 := by
  decide

/-- Claim C6 (amended): a bare `P` at the start of the string and the first
bare `P` immediately after a `+`/`-` are treated as coefficient `±1`; any
further bare `P` term is dropped by tokenization, contributing nothing and
raising no error; the coefficients of all terms that do tokenize are summed
into the slope.  In particular `"P+P+P"` yields slope `2` with no error,
`"P+P"` yields `2`, and `"1P+1P+1P"` (explicit coefficients) yields `3`. -/
theorem bare_p_normalization :
    (parseEquation "P+P+P").slope = some 2 ∧ (parseEquation "P+P+P").error = none ∧
    (parseEquation "P+P").slope = some 2 ∧
    (parseEquation "1P+1P+1P").slope = some 3 ∧
    (parseEquation "-P").slope = some (-1) ∧
    (parseEquation "5+P").slope = some 1 ∧ (parseEquation "5+P").intercept = some 5 := by
  decide

/-- Claim C7 counterexample: at the spec's example input the graph series
does not have 50 samples (the loop bound `i <= 50` is inclusive, so there
are 51). -/
theorem fifty_samples_refuted :
    (calculateCore (-1) 16 1 4 0 0).graphData.length ≠ 50 := by
  decide

/-- Claim C7 (amended): the series generator produces exactly 51 evenly
spaced quantity samples `i * (Qmax / 50)` for `i = 0..50`, and for each
sample and each of the four curves the price `(q - intercept) / slope` is
included only when the slope is non-zero and that price is non-negative;
otherwise the value is absent. -/
theorem series_sampling :
    ∀ aD bD aS bS sD sS : ℚ,
      (calculateCore aD bD aS bS sD sS).graphData.length = 51 ∧
      (∀ i : ℕ, i < 51 →
        ((calculateCore aD bD aS bS sD sS).graphData.map SamplePoint.quantity)[i]? =
          some ((i : ℚ) * ((calculateCore aD bD aS bS sD sS).maxQuantityValue / 50))) ∧
      (∀ pt ∈ (calculateCore aD bD aS bS sD sS).graphData,
        SampleRule aD bD pt.quantity pt.price_demanda_original ∧
        SampleRule aS bS pt.quantity pt.price_oferta_original ∧
        SampleRule aD (bD + sD) pt.quantity pt.price_demanda_shifted ∧
        SampleRule aS (bS + sS) pt.quantity pt.price_oferta_shifted) := by
  intro aD bD aS bS sD sS
  refine ⟨?_, ?_, ?_⟩
  · simp only [calculateCore, graphDataOf, List.length_map, List.length_range]
  · intro i hi
    simp only [calculateCore, graphDataOf, stepOf, List.getElem?_map, List.getElem?_range,
      hi, if_true, Option.map_some, Option.map_some']
  · intro pt hpt
    simp only [calculateCore, graphDataOf, List.mem_map, List.mem_range] at hpt
    obtain ⟨i, -, rfl⟩ := hpt
    exact ⟨sampleRule_curvePrice _ _ _, sampleRule_curvePrice _ _ _,
      sampleRule_curvePrice _ _ _, sampleRule_curvePrice _ _ _⟩

/-- Witness for C7's amended theorem: at the example input, the first sample
has demand price `16 = (0 - 16) / (-1)`, and sample 25 sits at
`25 * (Qmax / 50)`. -/
theorem series_sampling_witness :
    ((-1 : ℚ) ≠ 0 ∧ (16 : ℚ) = (0 - 16) / (-1) ∧ (0 : ℚ) ≤ 16) ∧
    ((calculateCore (-1) 16 1 4 0 0).graphData.map SamplePoint.quantity)[25]? =
      some (((25 : ℕ) : ℚ) * ((calculateCore (-1) 16 1 4 0 0).maxQuantityValue / 50)) := by
  constructor
  · have h := (series_sampling (-1) 16 1 4 0 0).2.2 ⟨0, some 16, none, some 16, none⟩
      (by decide)
    exact h.1.1 16 rfl
  · exact (series_sampling (-1) 16 1 4 0 0).2.1 25 (by norm_num)

/-- Claim C8 counterexample: for demand slope `-10`, intercept `100` and
supply slope `1`, intercept `0` with zero shifts, both equilibria exist with
quantity `100/11`, so the claim predicts `Qmax = max (1.5 * 100/11) 20 = 20`;
the code computes `110` (the demand intercept bound `1.1 * 100` applies
even though an equilibrium exists). -/
theorem qmax_spec_refuted :
    (calculateCore (-10) 100 1 0 0 0).initialEquilibrium = some ⟨100 / 11, 100 / 11⟩ ∧
    (calculateCore (-10) 100 1 0 0 0).shiftedEquilibrium = some ⟨100 / 11, 100 / 11⟩ ∧
    (calculateCore (-10) 100 1 0 0 0).maxQuantityValue = 110 ∧
    (110 : ℚ) ≠ max ((100 / 11 : ℚ) * (3 / 2)) 20 := by
  decide

/-- Claim C8 (amended): `Qmax` is at least 20, at least 1.5× each existing
equilibrium quantity, and at least 1.1× each positive quantity-intercept
(demand with negative slope, supply with positive slope, original and
shifted) — the intercept bounds apply even when equilibria exist — and it is
attained by 20 or by one of these bounds. -/
theorem qmax_characterization :
    ∀ aD bD aS bS sD sS : ℚ,
      20 ≤ (calculateCore aD bD aS bS sD sS).maxQuantityValue ∧
      (∀ pt, (calculateCore aD bD aS bS sD sS).initialEquilibrium = some pt →
        pt.quantity * (3 / 2) ≤ (calculateCore aD bD aS bS sD sS).maxQuantityValue) ∧
      (∀ pt, (calculateCore aD bD aS bS sD sS).shiftedEquilibrium = some pt →
        pt.quantity * (3 / 2) ≤ (calculateCore aD bD aS bS sD sS).maxQuantityValue) ∧
      (aD < 0 → 0 < bD →
        bD * (11 / 10) ≤ (calculateCore aD bD aS bS sD sS).maxQuantityValue) ∧
      (0 < aS → 0 < bS →
        bS * (11 / 10) ≤ (calculateCore aD bD aS bS sD sS).maxQuantityValue) ∧
      (aD < 0 → 0 < bD + sD →
        (bD + sD) * (11 / 10) ≤ (calculateCore aD bD aS bS sD sS).maxQuantityValue) ∧
      (0 < aS → 0 < bS + sS →
        (bS + sS) * (11 / 10) ≤ (calculateCore aD bD aS bS sD sS).maxQuantityValue) ∧
      ((calculateCore aD bD aS bS sD sS).maxQuantityValue = 20 ∨
        (∃ pt, (calculateCore aD bD aS bS sD sS).initialEquilibrium = some pt ∧
          (calculateCore aD bD aS bS sD sS).maxQuantityValue = pt.quantity * (3 / 2)) ∨
        (∃ pt, (calculateCore aD bD aS bS sD sS).shiftedEquilibrium = some pt ∧
          (calculateCore aD bD aS bS sD sS).maxQuantityValue = pt.quantity * (3 / 2)) ∨
        (calculateCore aD bD aS bS sD sS).maxQuantityValue = bD * (11 / 10) ∨
        (calculateCore aD bD aS bS sD sS).maxQuantityValue = bS * (11 / 10) ∨
        (calculateCore aD bD aS bS sD sS).maxQuantityValue = (bD + sD) * (11 / 10) ∨
        (calculateCore aD bD aS bS sD sS).maxQuantityValue = (bS + sS) * (11 / 10)) := by
  intro aD bD aS bS sD sS
  have h := maxChain_characterization (initialEqOf aD bD aS bS)
    (shiftedEqOf aD bD aS bS sD sS)
    (decide (aD < 0 ∧ 0 < bD)) (decide (0 < aS ∧ 0 < bS))
    (decide (aD < 0 ∧ 0 < bD + sD)) (decide (0 < aS ∧ 0 < bS + sS))
    bD bS (bD + sD) (bS + sS) (maxQuantityOf aD bD aS bS sD sS) rfl
  refine ⟨h.1, ?_, ?_, ?_, ?_, ?_, ?_, h.2.2.2.2.2.2.2⟩
  · intro pt hpt
    simp only [calculateCore] at hpt
    exact h.2.1 pt hpt
  · intro pt hpt
    simp only [calculateCore] at hpt
    exact h.2.2.1 pt hpt
  · intro h1 h2
    exact h.2.2.2.1 (by rw [decide_eq_true_eq]; exact ⟨h1, h2⟩)
  · intro h1 h2
    exact h.2.2.2.2.1 (by rw [decide_eq_true_eq]; exact ⟨h1, h2⟩)
  · intro h1 h2
    exact h.2.2.2.2.2.1 (by rw [decide_eq_true_eq]; exact ⟨h1, h2⟩)
  · intro h1 h2
    exact h.2.2.2.2.2.2.1 (by rw [decide_eq_true_eq]; exact ⟨h1, h2⟩)

/-- Witness for C8's amended theorem: at the counterexample input the demand
intercept bound is active and below `Qmax`. -/
theorem qmax_characterization_witness :
    (100 : ℚ) * (11 / 10) ≤ (calculateCore (-10) 100 1 0 0 0).maxQuantityValue :=
  (qmax_characterization (-10) 100 1 0 0 0).2.2.2.1 (by norm_num) (by norm_num)

/-- An original equilibrium quantity is in the raw table-quantity set. -/
theorem initial_mem_rawTable {aD bD aS bS sD sS : ℚ} {pt : EqPoint}
    (h : initialEqOf aD bD aS bS = some pt) :
    pt.quantity ∈ rawTableQuantitiesOf aD bD aS bS sD sS := by
  cases hs : shiftedEqOf aD bD aS bS sD sS with
  | none =>
    simp only [rawTableQuantitiesOf, h, hs]
    exact mem_addUnique_self _ _
  | some pt2 =>
    simp only [rawTableQuantitiesOf, h, hs]
    exact mem_addUnique_of_mem _ (mem_addUnique_self _ _)

/-- A shifted equilibrium quantity is in the raw table-quantity set. -/
theorem shifted_mem_rawTable {aD bD aS bS sD sS : ℚ} {pt : EqPoint}
    (h : shiftedEqOf aD bD aS bS sD sS = some pt) :
    pt.quantity ∈ rawTableQuantitiesOf aD bD aS bS sD sS := by
  simp only [rawTableQuantitiesOf, h]
  exact mem_addUnique_self _ _

/-- Claim C9: every equilibrium quantity in the solver's output appears at
its exact value among the table quantities and as a table row, and a row is
formatted with two decimals exactly when its quantity is within `EPSILON` of
some present equilibrium quantity (all other rows are formatted as
integers). -/
theorem equilibrium_rows_in_table :
    ∀ aD bD aS bS sD sS : ℚ,
      (∀ pt, (calculateCore aD bD aS bS sD sS).initialEquilibrium = some pt →
        pt.quantity ∈ (calculateCore aD bD aS bS sD sS).tableQuantities ∧
        pt.quantity ∈ (calculateCore aD bD aS bS sD sS).tableData.map TableRow.quantity) ∧
      (∀ pt, (calculateCore aD bD aS bS sD sS).shiftedEquilibrium = some pt →
        pt.quantity ∈ (calculateCore aD bD aS bS sD sS).tableQuantities ∧
        pt.quantity ∈ (calculateCore aD bD aS bS sD sS).tableData.map TableRow.quantity) ∧
      (∀ row ∈ (calculateCore aD bD aS bS sD sS).tableData,
        (row.format = QuantityFormat.twoDecimals ↔
          (∃ pt, (calculateCore aD bD aS bS sD sS).initialEquilibrium = some pt ∧
            |row.quantity - pt.quantity| < EPSILON) ∨
          (∃ pt, (calculateCore aD bD aS bS sD sS).shiftedEquilibrium = some pt ∧
            |row.quantity - pt.quantity| < EPSILON))) := by
  intro aD bD aS bS sD sS
  refine ⟨?_, ?_, ?_⟩
  · intro pt h
    simp only [calculateCore] at h ⊢
    have hq : pt.quantity ∈ tableQuantitiesOf aD bD aS bS sD sS :=
      (mem_sortQ _ _).mpr (initial_mem_rawTable h)
    refine ⟨hq, ?_⟩
    exact List.mem_map.mpr ⟨tableRowOf aD bD aS bS sD sS pt.quantity,
      List.mem_map.mpr ⟨pt.quantity, hq, rfl⟩, rfl⟩
  · intro pt h
    simp only [calculateCore] at h ⊢
    have hq : pt.quantity ∈ tableQuantitiesOf aD bD aS bS sD sS :=
      (mem_sortQ _ _).mpr (shifted_mem_rawTable h)
    refine ⟨hq, ?_⟩
    exact List.mem_map.mpr ⟨tableRowOf aD bD aS bS sD sS pt.quantity,
      List.mem_map.mpr ⟨pt.quantity, hq, rfl⟩, rfl⟩
  · intro row hrow
    simp only [calculateCore, tableDataOf, List.mem_map] at hrow
    obtain ⟨q, -, rfl⟩ := hrow
    simp only [calculateCore]
    cases h1 : initialEqOf aD bD aS bS with
    | none =>
      cases h2 : shiftedEqOf aD bD aS bS sD sS with
      | none => simp [tableRowOf, h1, h2]
      | some pt2 =>
        by_cases hc : |q - pt2.quantity| < EPSILON <;>
          simp [tableRowOf, h1, h2, hc]
    | some pt1 =>
      cases h2 : shiftedEqOf aD bD aS bS sD sS with
      | none =>
        by_cases hc : |q - pt1.quantity| < EPSILON <;>
          simp [tableRowOf, h1, h2, hc]
      | some pt2 =>
        by_cases hc1 : |q - pt1.quantity| < EPSILON <;>
          by_cases hc2 : |q - pt2.quantity| < EPSILON <;>
            simp [tableRowOf, h1, h2, hc1, hc2]

/-- Witness for C9 at the spec's example: the equilibrium quantity 10 is a
table quantity and the quantity of a table row. -/
theorem equilibrium_rows_in_table_witness :
    (10 : ℚ) ∈ (calculateCore (-1) 16 1 4 0 0).tableQuantities ∧
    (10 : ℚ) ∈ (calculateCore (-1) 16 1 4 0 0).tableData.map TableRow.quantity :=
  (equilibrium_rows_in_table (-1) 16 1 4 0 0).1 ⟨6, 10⟩ (by decide)

/-- Claim C10: when both equations fail to parse, the reported error
describes the demand equation's error; the supply equation's error is
reported only when the demand equation parses without error. -/
theorem demand_error_precedence :
    ∀ (d s : String) (sD sS : ℚ) (eD eS : String),
      ((parseEquation d).error = some eD → (parseEquation s).error = some eS →
        topError d s sD sS = some (demandErrorPrefix ++ eD)) ∧
      ((parseEquation d).error = none → (parseEquation s).error = some eS →
        topError d s sD sS = some (supplyErrorPrefix ++ eS)) := by
  intro d s sD sS eD eS
  constructor
  · intro hd _hs
    simp only [topError, hd]
  · intro hd hs
    simp only [topError, hd, hs]

/-- Witness for C10: two unparsable inputs report the demand error; a
parsable demand with unparsable supply reports the supply error. -/
theorem demand_error_precedence_witness :
    topError "abc" "xyz" 0 0 = some (demandErrorPrefix ++ invalidFormatMsg) ∧
    topError "P + 4" "xyz" 0 0 = some (supplyErrorPrefix ++ invalidFormatMsg) :=
  ⟨(demand_error_precedence "abc" "xyz" 0 0 invalidFormatMsg invalidFormatMsg).1
      (by decide) (by decide),
    (demand_error_precedence "P + 4" "xyz" 0 0 invalidFormatMsg invalidFormatMsg).2
      (by decide) (by decide)⟩

end OfertaDemanda
